import Mathlib

/-!
Shallow embedding of the landmark-driven scene composer of the
`test-face-landmark` repository: the mouth mesh triangulator
(`landmarksToMesh`), the curvature deformer (the curvature block of
`predictWebcam`), the pinned-object transform retargeter (`pin2.ts`), and
the hand-gesture hit-test game (`hands.ts`).  JavaScript numbers are
modelled as exact rationals, except for the deformer whose `Math.sin` is
modelled by `Real.sin`.  JavaScript exceptions (property access on
`undefined`) are modelled by `Except` values or explicit error flags.
-/

namespace FaceLandmark

/-- A mediapipe normalized landmark: `x`, `y` in `[0,1]` image space, `z` a
relative depth. -/
structure Landmark where
  x : ℚ
  y : ℚ
  z : ℚ
deriving DecidableEq

/-- A 3-component rational vector (models a three.js `Vector3`). -/
structure Vec3 where
  x : ℚ
  y : ℚ
  z : ℚ
deriving DecidableEq

/-- A texture-coordinate pair as pushed into the `uv` attribute. -/
structure UV where
  u : ℚ
  v : ℚ
deriving DecidableEq

/-- The fixed cyclic ordering of the 20 mouth landmarks
(`MOUTH_INDICES_SORTED` in the source): position `j` of the boundary ring
is entry `MOUTH_INDICES_SORTED[j]` of the mouth-landmark list. -/
def MOUTH_INDICES_SORTED : List ℕ :=
  [15, 16, 14, 17, 13, 18, 12, 19, 11, 0, 10, 1, 9, 2, 8, 3, 7, 4, 6, 5]

/-- Ring point `j`: the landmark selected by the `j`-th ring index.
`none` models a JavaScript `undefined` element access. -/
def ringPoint (ring : List ℕ) (landmarks : List Landmark) (j : ℕ) : Option Landmark :=
  (ring[j]?).bind (fun idx => landmarks[idx]?)

/-- Ring point `j` with a default; only used underneath a successful
`meshAccessOk` check, where the default is never reached. -/
def ringPointD (ring : List ℕ) (landmarks : List Landmark) (j : ℕ) : Landmark :=
  (ringPoint ring landmarks j).getD ⟨0, 0, 0⟩

/-- `landmarksToMesh` pushes each vertex position scaled by 2 per axis
(`landmarksCopy[i1].x * 2` and so on). -/
def scaledVertex (p : Landmark) : Vec3 :=
  ⟨p.x * 2, p.y * 2, p.z * 2⟩

/-- The UV pushed for a vertex is the unscaled normalized `(x, y)`. -/
def landmarkUV (p : Landmark) : UV :=
  ⟨p.x, p.y⟩

/-- True when every landmark access performed by the vertex loop of
`landmarksToMesh` succeeds; when false the JavaScript code throws a
`TypeError` (property access on `undefined`). -/
def meshAccessOk (ring : List ℕ) (landmarks : List Landmark) : Bool :=
  (List.range (ring.length - 2)).all (fun i =>
    (ringPoint ring landmarks i).isSome &&
    ((ringPoint ring landmarks (i + 1)).isSome &&
     (ringPoint ring landmarks (i + 2)).isSome))

/-- The vertex-position list built by the loop
`for(let i = 0; i < MOUTH_INDICES_SORTED.length-2; i++)`: for each `i`
the triple of ring points `i`, `i+1`, `i+2`, scaled by 2. -/
def meshVertices (ring : List ℕ) (landmarks : List Landmark) : List Vec3 :=
  (List.range (ring.length - 2)).flatMap (fun i =>
    [scaledVertex (ringPointD ring landmarks i),
     scaledVertex (ringPointD ring landmarks (i + 1)),
     scaledVertex (ringPointD ring landmarks (i + 2))])

/-- The parallel UV list: the same traversal with unscaled `(x, y)`. -/
def meshUVs (ring : List ℕ) (landmarks : List Landmark) : List UV :=
  (List.range (ring.length - 2)).flatMap (fun i =>
    [landmarkUV (ringPointD ring landmarks i),
     landmarkUV (ringPointD ring landmarks (i + 1)),
     landmarkUV (ringPointD ring landmarks (i + 2))])

/-- One rational accumulator of the `sum` object of `landmarksToMesh`:
starting from 0, iteration `i` adds `V i` when `i = 0`, adds `V (i + 2)`
when `i` is the last iteration (`i = MOUTH_INDICES_SORTED.length - 3`),
and always adds `V (i + 1)`; here `V j` stands for one coordinate of
scaled ring point `j`. -/
def meshSumComp (L : ℕ) (V : ℕ → ℚ) : ℚ :=
  (List.range (L - 2)).foldl (fun s i =>
    let s1 := if i = 0 then s + V i else s
    let s2 := if i = L - 3 then s1 + V (i + 2) else s1
    s2 + V (i + 1)) 0

/-- One coordinate of scaled ring point `j` (the `x1`, `y2`, `z3` and
similar values of the loop body). -/
def scaledCoord (f : Vec3 → ℚ) (ring : List ℕ) (landmarks : List Landmark) (j : ℕ) : ℚ :=
  f (scaledVertex (ringPointD ring landmarks j))

/-- The `sum` accumulator after the vertex loop, one axis at a time as the
source mutates `sum.x`, `sum.y`, `sum.z` separately. -/
def meshSum (ring : List ℕ) (landmarks : List Landmark) : Vec3 :=
  ⟨meshSumComp ring.length (scaledCoord Vec3.x ring landmarks),
   meshSumComp ring.length (scaledCoord Vec3.y ring landmarks),
   meshSumComp ring.length (scaledCoord Vec3.z ring landmarks)⟩

/-- `averagePoint` of the source: `sum` divided by
`MOUTH_INDICES_SORTED.length` (here `ring.length`). -/
def averagePoint (ring : List ℕ) (landmarks : List Landmark) : Vec3 :=
  ⟨(meshSum ring landmarks).x / ring.length,
   (meshSum ring landmarks).y / ring.length,
   (meshSum ring landmarks).z / ring.length⟩

/-- Midpoint of the min and max of a coordinate list: one axis of the
bounding-box centre used by `THREE.BufferGeometry.center()`
(`computeBoundingBox` then translation by the negated centre).  For an
empty attribute three.js produces the zero vector (`Box3.getCenter` on an
empty box). -/
def bboxCenter1 (xs : List ℚ) : ℚ :=
  match xs with
  | [] => 0
  | a :: rest => ((rest.foldl min a) + (rest.foldl max a)) / 2

/-- `geometry.center()` of three.js: translate every vertex by the negated
bounding-box centre. -/
def centerGeometry (verts : List Vec3) : List Vec3 :=
  let cx := bboxCenter1 (verts.map Vec3.x)
  let cy := bboxCenter1 (verts.map Vec3.y)
  let cz := bboxCenter1 (verts.map Vec3.z)
  verts.map (fun v => ⟨v.x - cx, v.y - cy, v.z - cz⟩)

/-- The observable result of `landmarksToMesh`: the centred `position`
attribute, the `uv` attribute, and `mesh.position` (set to
`averagePoint`). -/
structure MeshData where
  positions : List Vec3
  uvs : List UV
  position : Vec3
deriving DecidableEq

deriving instance DecidableEq for Except

/-- `landmarksToMesh` with the ring of boundary indices as an explicit
parameter (the source hard-wires `ring = MOUTH_INDICES_SORTED`; the loop
bound `MOUTH_INDICES_SORTED.length-2` and every ring lookup generalize to
`ring`).  `Except.ok none` models the early `return` for an empty input;
`Except.error ()` models the `TypeError` thrown when a ring lookup hits a
missing landmark. -/
def landmarksToMeshRing (ring : List ℕ) (landmarks : List Landmark) :
    Except Unit (Option MeshData) :=
  if landmarks.length = 0 then Except.ok none
  else if meshAccessOk ring landmarks then
    Except.ok (some
      { positions := centerGeometry (meshVertices ring landmarks)
        uvs := meshUVs ring landmarks
        position := averagePoint ring landmarks })
  else Except.error ()

/-- `landmarksToMesh` exactly as called in the source, with the ring fixed
to `MOUTH_INDICES_SORTED`. -/
def landmarksToMesh (landmarks : List Landmark) : Except Unit (Option MeshData) :=
  landmarksToMeshRing MOUTH_INDICES_SORTED landmarks

/-- The synthetic 4-point ring of the end-to-end example, used as a
concrete instance: landmarks `(0,0,0), (1,0,0), (1,1,0), (0,1,0)` with the
identity ring ordering. -/
def demoLandmarks : List Landmark :=
  [⟨0, 0, 0⟩, ⟨1, 0, 0⟩, ⟨1, 1, 0⟩, ⟨0, 1, 0⟩]

/-- The identity ring over the four demo landmarks. -/
def demoRing : List ℕ :=
  [0, 1, 2, 3]

theorem range_flatMap_triple_length {α : Type} (f : ℕ → List α)
    (hf : ∀ k, (f k).length = 3) (n : ℕ) :
    ((List.range n).flatMap f).length = 3 * n := by
  induction n with
  | zero => rfl
  | succ m ih =>
    rw [List.range_succ, List.flatMap_append, List.length_append, ih]
    simp [hf, Nat.mul_succ]

theorem range_flatMap_triple_get {α : Type} (f : ℕ → List α)
    (hf : ∀ k, (f k).length = 3) (n i r : ℕ) (hi : i < n) (hr : r < 3) :
    ((List.range n).flatMap f)[3 * i + r]? = (f i)[r]? := by
  induction n with
  | zero => omega
  | succ m ih =>
    rw [List.range_succ, List.flatMap_append, List.getElem?_append,
        range_flatMap_triple_length f hf m]
    rcases Nat.lt_succ_iff_lt_or_eq.mp hi with h | h
    · rw [if_pos (by omega)]
      exact ih h
    · subst h
      rw [if_neg (by omega)]
      have hsub : 3 * i + r - 3 * i = r := by omega
      rw [hsub]
      simp

/-- C1: for every boundary ring of `2*N` indices (`N ≥ 2`) all of whose
landmark lookups succeed, `landmarksToMesh` (with the ring made explicit;
the source instantiates it with `MOUTH_INDICES_SORTED`, of length
`2*10`) emits exactly `2*N - 2` triangles — `3*(2*N-2)` vertices and as
many UVs — where triangle `i` is built from ring points `i`, `i+1`,
`i+2`, and every emitted vertex's UV equals its source landmark's
normalized `(x, y)`. -/
theorem C1_ring_triangulator_strip (N : ℕ) (ring : List ℕ) (landmarks : List Landmark)
    (hlen : ring.length = 2 * N) (hN : 2 ≤ N)
    (hok : meshAccessOk ring landmarks = true)
    (hne : landmarks.length ≠ 0) :
    landmarksToMeshRing ring landmarks =
      Except.ok (some
        { positions := centerGeometry (meshVertices ring landmarks)
          uvs := meshUVs ring landmarks
          position := averagePoint ring landmarks }) ∧
    (meshVertices ring landmarks).length = 3 * (2 * N - 2) ∧
    (meshUVs ring landmarks).length = 3 * (2 * N - 2) ∧
    (∀ i r, i < 2 * N - 2 → r < 3 →
      (meshVertices ring landmarks)[3 * i + r]? =
          some (scaledVertex (ringPointD ring landmarks (i + r))) ∧
      (meshUVs ring landmarks)[3 * i + r]? =
          some (landmarkUV (ringPointD ring landmarks (i + r)))) := by
  have hfv : ∀ k, ([scaledVertex (ringPointD ring landmarks k),
      scaledVertex (ringPointD ring landmarks (k + 1)),
      scaledVertex (ringPointD ring landmarks (k + 2))]).length = 3 := fun _ => rfl
  have hfu : ∀ k, ([landmarkUV (ringPointD ring landmarks k),
      landmarkUV (ringPointD ring landmarks (k + 1)),
      landmarkUV (ringPointD ring landmarks (k + 2))]).length = 3 := fun _ => rfl
  refine ⟨?_, ?_, ?_, ?_⟩
  · simp [landmarksToMeshRing, hne, hok]
  · rw [meshVertices, range_flatMap_triple_length _ hfv, hlen]
  · rw [meshUVs, range_flatMap_triple_length _ hfu, hlen]
  · intro i r hi hr
    have hi2 : i < ring.length - 2 := by omega
    rw [meshVertices, meshUVs,
        range_flatMap_triple_get _ hfv _ i r hi2 hr,
        range_flatMap_triple_get _ hfu _ i r hi2 hr]
    interval_cases r <;> simp

/-- Witness for C1 at the concrete 4-point demo ring (`N = 2`). -/
theorem C1_ring_triangulator_strip_witness :
    (demoRing.length = 2 * 2 ∧ 2 ≤ 2 ∧
      meshAccessOk demoRing demoLandmarks = true ∧
      demoLandmarks.length ≠ 0) ∧
    (landmarksToMeshRing demoRing demoLandmarks =
      Except.ok (some
        { positions := centerGeometry (meshVertices demoRing demoLandmarks)
          uvs := meshUVs demoRing demoLandmarks
          position := averagePoint demoRing demoLandmarks }) ∧
    (meshVertices demoRing demoLandmarks).length = 3 * (2 * 2 - 2) ∧
    (meshUVs demoRing demoLandmarks).length = 3 * (2 * 2 - 2) ∧
    (∀ i r, i < 2 * 2 - 2 → r < 3 →
      (meshVertices demoRing demoLandmarks)[3 * i + r]? =
          some (scaledVertex (ringPointD demoRing demoLandmarks (i + r))) ∧
      (meshUVs demoRing demoLandmarks)[3 * i + r]? =
          some (landmarkUV (ringPointD demoRing demoLandmarks (i + r))))) :=
  ⟨⟨by decide, by decide, by decide, by decide⟩,
    C1_ring_triangulator_strip 2 demoRing demoLandmarks (by decide) (by decide)
      (by decide) (by decide)⟩

theorem list_range_map_sum (f : ℕ → ℚ) (n : ℕ) :
    ((List.range n).map f).sum = ∑ i ∈ Finset.range n, f i := by
  induction n with
  | zero => rfl
  | succ m ih =>
    rw [List.range_succ, List.map_append, List.sum_append, Finset.sum_range_succ, ih]
    simp

theorem foldl_add_eq_sum (c : ℕ → ℚ) (n : ℕ) (a : ℚ) :
    (List.range n).foldl (fun s i => s + c i) a = a + ∑ i ∈ Finset.range n, c i := by
  induction n with
  | zero => simp
  | succ m ih =>
    rw [List.range_succ, List.foldl_append, ih, Finset.sum_range_succ]
    simp [add_assoc]

theorem meshSumComp_eq_sum (L : ℕ) (V : ℕ → ℚ) (hL : 3 ≤ L) :
    meshSumComp L V = ∑ j ∈ Finset.range L, V j := by
  obtain ⟨M, rfl⟩ : ∃ M, L = M + 3 := ⟨L - 3, by omega⟩
  have hrange : M + 3 - 2 = M + 1 := by omega
  have hbody : (fun (s : ℚ) (i : ℕ) =>
      let s1 := if i = 0 then s + V i else s
      let s2 := if i = M + 3 - 3 then s1 + V (i + 2) else s1
      s2 + V (i + 1)) = (fun (s : ℚ) (i : ℕ) =>
      s + ((if i = 0 then V i else 0) + ((if i = M then V (i + 2) else 0) + V (i + 1)))) := by
    funext s i
    simp only [Nat.add_sub_cancel]
    split_ifs <;> ring
  rw [meshSumComp, hbody, hrange, foldl_add_eq_sum, zero_add]
  have h1 : ∑ i ∈ Finset.range (M + 1), (if i = 0 then V i else 0) = V 0 := by
    rw [Finset.sum_ite_eq' (Finset.range (M + 1)) 0 V]
    simp
  have h2 : ∑ i ∈ Finset.range (M + 1), (if i = M then V (i + 2) else 0) = V (M + 2) := by
    rw [Finset.sum_ite_eq' (Finset.range (M + 1)) M (fun i => V (i + 2))]
    simp
  rw [Finset.sum_add_distrib, Finset.sum_add_distrib, h1, h2,
      Finset.sum_range_succ V (M + 2), Finset.sum_range_succ' V (M + 1)]
  ring

theorem meshSum_eq_pointSum (ring : List ℕ) (landmarks : List Landmark)
    (hL : 3 ≤ ring.length) :
    meshSum ring landmarks =
      ⟨∑ j ∈ Finset.range ring.length, scaledCoord Vec3.x ring landmarks j,
       ∑ j ∈ Finset.range ring.length, scaledCoord Vec3.y ring landmarks j,
       ∑ j ∈ Finset.range ring.length, scaledCoord Vec3.z ring landmarks j⟩ := by
  rw [meshSum, meshSumComp_eq_sum _ _ hL, meshSumComp_eq_sum _ _ hL,
      meshSumComp_eq_sum _ _ hL]

theorem foldl_min_map_sub (xs : List ℚ) (c a : ℚ) :
    (xs.map (fun x => x - c)).foldl min (a - c) = xs.foldl min a - c := by
  induction xs generalizing a with
  | nil => rfl
  | cons y ys ih => simp only [List.map_cons, List.foldl_cons, min_sub_sub_right, ih]

theorem foldl_max_map_sub (xs : List ℚ) (c a : ℚ) :
    (xs.map (fun x => x - c)).foldl max (a - c) = xs.foldl max a - c := by
  induction xs generalizing a with
  | nil => rfl
  | cons y ys ih => simp only [List.map_cons, List.foldl_cons, max_sub_sub_right, ih]

theorem bboxCenter1_map_sub (xs : List ℚ) (c : ℚ) (h : xs ≠ []) :
    bboxCenter1 (xs.map (fun x => x - c)) = bboxCenter1 xs - c := by
  match xs with
  | [] => exact absurd rfl h
  | a :: rest =>
    simp only [List.map_cons, bboxCenter1, foldl_min_map_sub, foldl_max_map_sub]
    ring

/-- Landmarks whose bounding-box centre differs from their centroid, used
to separate the two recentring notions on a 4-point ring. -/
def cexLandmarks : List Landmark :=
  [⟨0, 0, 0⟩, ⟨0, 1, 0⟩, ⟨1, 0, 0⟩, ⟨4, 0, 0⟩]

/-- C7 counterexample: `geometry.center()` does not translate the mesh by
the traversal centroid (`averagePoint`); at this concrete ring the
bounding-box centre (x-midpoint 4) differs from the centroid
(x-mean 5/2), so the recentred local origin is not the vertex-position
centroid as the claim states. -/
theorem C7_counterexample :
    centerGeometry (meshVertices demoRing cexLandmarks) ≠
      (meshVertices demoRing cexLandmarks).map
        (fun v => ⟨v.x - (averagePoint demoRing cexLandmarks).x,
                   v.y - (averagePoint demoRing cexLandmarks).y,
                   v.z - (averagePoint demoRing cexLandmarks).z⟩) := by
  intro h
  have h0 := congrArg (fun l => (l.map Vec3.x)[0]?) h
  simp only [centerGeometry, meshVertices, averagePoint, meshSum, meshSumComp, scaledCoord,
      ringPointD, ringPoint, demoRing, cexLandmarks, bboxCenter1, scaledVertex,
      List.length_cons, List.length_nil] at h0
  norm_num [List.range_succ] at h0

/-- C7 (amended): after assembly the mesh is recentred by subtracting the
bounding-box centre of the vertex positions (`geometry.center()` of
three.js), so the recentred positions have bounding-box centre zero — not
the traversal centroid; the traversal mean of the first vertex, the last
vertex, and every middle-of-triple vertex, which equals the mean of the
scaled ring points taken once each, becomes the mesh's placement position
in the parent scene. -/
theorem C7_recentring_and_placement (ring : List ℕ) (landmarks : List Landmark)
    (hL : 3 ≤ ring.length) :
    (∀ m : MeshData, landmarksToMeshRing ring landmarks = Except.ok (some m) →
      m.position = averagePoint ring landmarks ∧
      m.positions = centerGeometry (meshVertices ring landmarks)) ∧
    averagePoint ring landmarks =
      ⟨(∑ j ∈ Finset.range ring.length, scaledCoord Vec3.x ring landmarks j) / ring.length,
       (∑ j ∈ Finset.range ring.length, scaledCoord Vec3.y ring landmarks j) / ring.length,
       (∑ j ∈ Finset.range ring.length, scaledCoord Vec3.z ring landmarks j) / ring.length⟩ ∧
    (meshVertices ring landmarks ≠ [] →
      bboxCenter1 ((centerGeometry (meshVertices ring landmarks)).map Vec3.x) = 0 ∧
      bboxCenter1 ((centerGeometry (meshVertices ring landmarks)).map Vec3.y) = 0 ∧
      bboxCenter1 ((centerGeometry (meshVertices ring landmarks)).map Vec3.z) = 0) := by
  refine ⟨?_, ?_, ?_⟩
  · intro m hm
    by_cases h0 : landmarks.length = 0
    · simp [landmarksToMeshRing, h0] at hm
    · by_cases hok : meshAccessOk ring landmarks = true
      · simp [landmarksToMeshRing, h0, hok] at hm
        subst hm
        exact ⟨rfl, rfl⟩
      · simp [landmarksToMeshRing, h0, hok] at hm
  · rw [averagePoint, meshSum_eq_pointSum _ _ hL]
  · intro hne
    have hmx : (centerGeometry (meshVertices ring landmarks)).map Vec3.x =
        ((meshVertices ring landmarks).map Vec3.x).map
          (fun t => t - bboxCenter1 ((meshVertices ring landmarks).map Vec3.x)) := by
      simp [centerGeometry, List.map_map, Function.comp]
    have hmy : (centerGeometry (meshVertices ring landmarks)).map Vec3.y =
        ((meshVertices ring landmarks).map Vec3.y).map
          (fun t => t - bboxCenter1 ((meshVertices ring landmarks).map Vec3.y)) := by
      simp [centerGeometry, List.map_map, Function.comp]
    have hmz : (centerGeometry (meshVertices ring landmarks)).map Vec3.z =
        ((meshVertices ring landmarks).map Vec3.z).map
          (fun t => t - bboxCenter1 ((meshVertices ring landmarks).map Vec3.z)) := by
      simp [centerGeometry, List.map_map, Function.comp]
    have hnx : (meshVertices ring landmarks).map Vec3.x ≠ [] := by
      simpa using hne
    have hny : (meshVertices ring landmarks).map Vec3.y ≠ [] := by
      simpa using hne
    have hnz : (meshVertices ring landmarks).map Vec3.z ≠ [] := by
      simpa using hne
    refine ⟨?_, ?_, ?_⟩
    · rw [hmx, bboxCenter1_map_sub _ _ hnx]; ring
    · rw [hmy, bboxCenter1_map_sub _ _ hny]; ring
    · rw [hmz, bboxCenter1_map_sub _ _ hnz]; ring

/-- Witness for C7 (amended): the placement position of the demo ring is
the per-ring-point mean. -/
theorem C7_recentring_and_placement_witness :
    3 ≤ demoRing.length ∧
    averagePoint demoRing demoLandmarks =
      ⟨(∑ j ∈ Finset.range demoRing.length, scaledCoord Vec3.x demoRing demoLandmarks j) /
          demoRing.length,
       (∑ j ∈ Finset.range demoRing.length, scaledCoord Vec3.y demoRing demoLandmarks j) /
          demoRing.length,
       (∑ j ∈ Finset.range demoRing.length, scaledCoord Vec3.z demoRing demoLandmarks j) /
          demoRing.length⟩ :=
  ⟨by decide, (C7_recentring_and_placement demoRing demoLandmarks (by decide)).2.1⟩

/-- C10: every vertex position emitted by the triangulator is its source
landmark's coordinate scaled by exactly 2 on every axis, while the
parallel UV entry for the same traversal slot is the unscaled normalized
`(x, y)`; consequently the placement position is twice the mean of the
unscaled ring landmarks. -/
theorem C10_vertices_scaled_by_two (ring : List ℕ) (landmarks : List Landmark)
    (hL : 3 ≤ ring.length) :
    (∀ i r, i < ring.length - 2 → r < 3 →
      (meshVertices ring landmarks)[3 * i + r]? =
        some ⟨(ringPointD ring landmarks (i + r)).x * 2,
              (ringPointD ring landmarks (i + r)).y * 2,
              (ringPointD ring landmarks (i + r)).z * 2⟩ ∧
      (meshUVs ring landmarks)[3 * i + r]? =
        some ⟨(ringPointD ring landmarks (i + r)).x,
              (ringPointD ring landmarks (i + r)).y⟩) ∧
    averagePoint ring landmarks =
      ⟨2 * (∑ j ∈ Finset.range ring.length, (ringPointD ring landmarks j).x) / ring.length,
       2 * (∑ j ∈ Finset.range ring.length, (ringPointD ring landmarks j).y) / ring.length,
       2 * (∑ j ∈ Finset.range ring.length, (ringPointD ring landmarks j).z) / ring.length⟩ := by
  have hfv : ∀ k, ([scaledVertex (ringPointD ring landmarks k),
      scaledVertex (ringPointD ring landmarks (k + 1)),
      scaledVertex (ringPointD ring landmarks (k + 2))]).length = 3 := fun _ => rfl
  have hfu : ∀ k, ([landmarkUV (ringPointD ring landmarks k),
      landmarkUV (ringPointD ring landmarks (k + 1)),
      landmarkUV (ringPointD ring landmarks (k + 2))]).length = 3 := fun _ => rfl
  constructor
  · intro i r hi hr
    rw [meshVertices, meshUVs,
        range_flatMap_triple_get _ hfv _ i r hi hr,
        range_flatMap_triple_get _ hfu _ i r hi hr]
    interval_cases r <;> simp [scaledVertex, landmarkUV]
  · rw [averagePoint, meshSum_eq_pointSum _ _ hL]
    have hx : ∀ j, scaledCoord Vec3.x ring landmarks j =
        (ringPointD ring landmarks j).x * 2 := fun _ => rfl
    have hy : ∀ j, scaledCoord Vec3.y ring landmarks j =
        (ringPointD ring landmarks j).y * 2 := fun _ => rfl
    have hz : ∀ j, scaledCoord Vec3.z ring landmarks j =
        (ringPointD ring landmarks j).z * 2 := fun _ => rfl
    simp only [hx, hy, hz, ← Finset.sum_mul]
    refine congrArg (fun p : ℚ × ℚ × ℚ => Vec3.mk p.1 p.2.1 p.2.2) (?_ : (_, _, _) = (_, _, _))
    refine Prod.ext ?_ (Prod.ext ?_ ?_) <;> simp <;> ring

/-- Witness for C10 at the demo ring: the placement position is twice the
landmark mean. -/
theorem C10_vertices_scaled_by_two_witness :
    3 ≤ demoRing.length ∧
    averagePoint demoRing demoLandmarks =
      ⟨2 * (∑ j ∈ Finset.range demoRing.length, (ringPointD demoRing demoLandmarks j).x) /
          demoRing.length,
       2 * (∑ j ∈ Finset.range demoRing.length, (ringPointD demoRing demoLandmarks j).y) /
          demoRing.length,
       2 * (∑ j ∈ Finset.range demoRing.length, (ringPointD demoRing demoLandmarks j).z) /
          demoRing.length⟩ :=
  ⟨by decide, (C10_vertices_scaled_by_two demoRing demoLandmarks (by decide)).2⟩

/-- C4 counterexample: a single-landmark list (fewer than 3 points, not
empty) makes `landmarksToMesh` fail — ring index 15 hits a missing
landmark and the JavaScript code throws — instead of returning "no mesh"
gracefully. -/
theorem C4_counterexample :
    landmarksToMesh [⟨0, 0, 0⟩] = Except.error () ∧
    landmarksToMesh [⟨0, 0, 0⟩] ≠ Except.ok none := by
  constructor
  · decide
  · decide

/-- C4 (amended): only the empty landmark list yields the graceful
"no mesh" result (`undefined` is returned before any ring access); a
non-empty list with fewer than 3 points leaves ring indices without
landmarks and makes `landmarksToMesh` fail with an error for that frame
instead of returning no mesh. -/
theorem C4_insufficient_points (landmarks : List Landmark) :
    (landmarks = [] → landmarksToMesh landmarks = Except.ok none) ∧
    (landmarks ≠ [] → landmarks.length < 3 →
      landmarksToMesh landmarks = Except.error ()) := by
  constructor
  · intro h
    subst h
    rfl
  · intro hne hlt
    have h15 : landmarks[15]? = none := List.getElem?_eq_none (by omega)
    have hfail : meshAccessOk MOUTH_INDICES_SORTED landmarks = false := by
      have hmem : (0 : ℕ) ∈ List.range (MOUTH_INDICES_SORTED.length - 2) := by decide
      rw [← Bool.not_eq_true]
      intro hall
      have := List.all_eq_true.mp hall 0 hmem
      simp [ringPoint, MOUTH_INDICES_SORTED, h15] at this
    have h0 : ¬landmarks.length = 0 := by
      simpa [List.length_eq_zero] using hne
    simp [landmarksToMesh, landmarksToMeshRing, h0, hfail]

/-- Witness for C4 (amended) at the empty list and at a one-point list. -/
theorem C4_insufficient_points_witness :
    landmarksToMesh [] = Except.ok none ∧
    landmarksToMesh [⟨1, 1, 0⟩] = Except.error () :=
  ⟨(C4_insufficient_points []).1 rfl,
   (C4_insufficient_points [⟨1, 1, 0⟩]).2 (by decide) (by decide)⟩

/-- A real-valued 3-vector for the curvature deformer, whose displacement
uses `Math.sin` (modelled by `Real.sin`). -/
structure RVec3 where
  x : ℝ
  y : ℝ
  z : ℝ

/-- The curvature block of `predictWebcam` in the mesh demo: when the
`curvature` slider value is non-zero (JavaScript truthiness of
`MODIFICATIONS.curvature`), every vertex `(x, y, z)` of the freshly built
mesh has its `y` replaced by `y + sin(|x - originX| * c) * 0.1`, where
`originX` is `mesh.position.x`; `x` and `z` are left unchanged.  When the
slider is zero the whole block is skipped. -/
noncomputable def applyCurvature (c originX : ℝ) (verts : List RVec3) : List RVec3 :=
  if c = 0 then verts
  else verts.map (fun v => ⟨v.x, v.y + Real.sin (|v.x - originX| * c) * 0.1, v.z⟩)

/-- C6: for every mesh vertex the deformer with curvature coefficient `c`
replaces `y` by `y + sin(|x - originX| * c) * 0.1` with amplitude fixed
at 0.1, leaving `x` and `z` unchanged (for `c = 0` the skipped block
agrees with the formula because `sin 0 = 0`); consequently for `c = 0`
the deformer is the identity. -/
theorem C6_surface_deformer (c originX : ℝ) (verts : List RVec3) :
    (∀ (i : ℕ) (v : RVec3), verts[i]? = some v →
      (applyCurvature c originX verts)[i]? =
        some (RVec3.mk v.x (v.y + Real.sin (|v.x - originX| * c) * 0.1) v.z)) ∧
    (c = 0 → applyCurvature c originX verts = verts) := by
  constructor
  · intro i v hv
    by_cases hc : c = 0
    · subst hc
      simp [applyCurvature, hv, mul_zero, Real.sin_zero]
    · simp [applyCurvature, hc, List.getElem?_map, hv]
  · intro hc
    simp [applyCurvature, hc]

/-- Witness for C6: with `c = 0` the deformer leaves a concrete vertex
list unchanged. -/
theorem C6_surface_deformer_witness :
    applyCurvature 0 0 [⟨1, 2, 3⟩] = [⟨1, 2, 3⟩] :=
  (C6_surface_deformer 0 0 [⟨1, 2, 3⟩]).2 rfl

/-- Gesture label of the trigger gesture of `hands.ts`. -/
def closedFist : String := "Closed_Fist"

/-- A non-trigger gesture label (mediapipe's `None` category). -/
def noGesture : String := "None"

/-- One frame of the gesture debouncer for one tracked hand (the body of
the `for` loop over `results.gestures` in `predictWebcam` of `hands.ts`):
the hit test is invoked iff the current label is `Closed_Fist` and the
stored `lastHandStates[i]` was not `Closed_Fist` (initially `undefined`,
modelled as `none`); afterwards the current label is stored
unconditionally. -/
def stepGesture (prev : Option String) (current : String) : Bool × Option String :=
  (current == closedFist && !(prev == some closedFist), some current)

/-- Number of hit tests fired over a label sequence for one hand, starting
from the initial empty `lastHandStates` entry. -/
def countHits (labels : List String) : ℕ :=
  (labels.foldl (fun (acc : ℕ × Option String) l =>
    let st := stepGesture acc.2 l
    (acc.1 + (if st.1 then 1 else 0), st.2)) (0, none)).1

/-- C3: a hit test is invoked in a frame iff the current gesture label is
the trigger (`Closed_Fist`) and the previously stored label for the hand
was not the trigger; the stored state is updated to the current label
unconditionally every frame; and the label sequence
`[none, none, trigger, trigger, trigger, none, trigger]` invokes the hit
test exactly 2 times. -/
theorem C3_gesture_debounce :
    (∀ (prev : Option String) (current : String),
      ((stepGesture prev current).1 = true ↔
        current = closedFist ∧ prev ≠ some closedFist) ∧
      (stepGesture prev current).2 = some current) ∧
    countHits [noGesture, noGesture, closedFist, closedFist, closedFist,
      noGesture, closedFist] = 2 := by
  constructor
  · intro prev current
    constructor
    · simp [stepGesture]
    · rfl
  · decide

/-- `radius` constant of `Game.generateNewTarget`. -/
def targetRadius : ℚ := 5

/-- `margin` constant of `Game.generateNewTarget`. -/
def targetMargin : ℚ := 20

/-- The clamp applied by `Game.generateNewTarget` to one axis:
`Math.max(radius + margin, Math.min(v, dim - radius - margin))`. -/
def clampToFrame (dim v : ℚ) : ℚ :=
  max (targetRadius + targetMargin) (min v (dim - targetRadius - targetMargin))

/-- The replacement target position: a random draw `r * dimension` on each
axis, clamped to the frame. -/
def generateNewTargetPos (width height rx ry : ℚ) : ℚ × ℚ :=
  (clampToFrame width (rx * width), clampToFrame height (ry * height))

/-- C5: whenever the frame is at least `2*(radius+margin)` wide and high
(50 pixels with the fixed constants), the replacement target position
satisfies `radius+margin ≤ x ≤ width-radius-margin` and likewise for `y`,
for every pseudo-random draw. -/
theorem C5_target_spawn_bounds (width height rx ry : ℚ)
    (hw : 2 * (targetRadius + targetMargin) ≤ width)
    (hh : 2 * (targetRadius + targetMargin) ≤ height) :
    targetRadius + targetMargin ≤ (generateNewTargetPos width height rx ry).1 ∧
    (generateNewTargetPos width height rx ry).1 ≤ width - targetRadius - targetMargin ∧
    targetRadius + targetMargin ≤ (generateNewTargetPos width height rx ry).2 ∧
    (generateNewTargetPos width height rx ry).2 ≤ height - targetRadius - targetMargin := by
  have hw2 : targetRadius + targetMargin ≤ width - targetRadius - targetMargin := by
    simp only [targetRadius, targetMargin] at hw ⊢
    linarith
  have hh2 : targetRadius + targetMargin ≤ height - targetRadius - targetMargin := by
    simp only [targetRadius, targetMargin] at hh ⊢
    linarith
  simp only [generateNewTargetPos, clampToFrame]
  exact ⟨le_max_left _ _, max_le hw2 (min_le_right _ _),
         le_max_left _ _, max_le hh2 (min_le_right _ _)⟩

/-- Witness for C5 on a 640 by 480 frame with extreme draws. -/
theorem C5_target_spawn_bounds_witness :
    (2 * (targetRadius + targetMargin) ≤ (640 : ℚ) ∧
     2 * (targetRadius + targetMargin) ≤ (480 : ℚ)) ∧
    (targetRadius + targetMargin ≤ (generateNewTargetPos 640 480 0 1).1 ∧
     (generateNewTargetPos 640 480 0 1).1 ≤ 640 - targetRadius - targetMargin ∧
     targetRadius + targetMargin ≤ (generateNewTargetPos 640 480 0 1).2 ∧
     (generateNewTargetPos 640 480 0 1).2 ≤ 480 - targetRadius - targetMargin) :=
  ⟨⟨by norm_num [targetRadius, targetMargin], by norm_num [targetRadius, targetMargin]⟩,
   C5_target_spawn_bounds 640 480 0 1 (by norm_num [targetRadius, targetMargin])
     (by norm_num [targetRadius, targetMargin])⟩

/-- The hand bounding box as assembled in `predictWebcam` of `hands.ts`
(screen-space origin and size; the `angle` field of the source is always 0
and plays no part in the hit test). -/
structure BoundingBox where
  originX : ℚ
  originY : ℚ
  width : ℚ
  height : ℚ
deriving DecidableEq

/-- A game target: screen-space position and radius. -/
structure Target where
  x : ℚ
  y : ℚ
  radius : ℚ
deriving DecidableEq

/-- `Target.hit` of `hands.ts`: true iff the target position lies inside
the box, with inclusive comparisons on all four sides (`>=`, `<=`). -/
def Target.hit (t : Target) (box : BoundingBox) : Bool :=
  decide (box.originX ≤ t.x) && decide (t.x ≤ box.originX + box.width) &&
  decide (box.originY ≤ t.y) && decide (t.y ≤ box.originY + box.height)

/-- C9: the hit test reports a hit exactly when the target lies within the
bounding box with inclusive bounds on all four sides; in particular a
target exactly at the `(originX, originY)` corner registers as hit (for a
box of non-negative extent). -/
theorem C9_hit_test_inclusive (t : Target) (box : BoundingBox) :
    (t.hit box = true ↔
      box.originX ≤ t.x ∧ t.x ≤ box.originX + box.width ∧
      box.originY ≤ t.y ∧ t.y ≤ box.originY + box.height) ∧
    (t.x = box.originX → t.y = box.originY → 0 ≤ box.width → 0 ≤ box.height →
      t.hit box = true) := by
  constructor
  · simp [Target.hit, and_assoc]
  · intro hx hy hw hh
    simp [Target.hit, hx, hy, hw, hh]

/-- Witness for C9: a target exactly at the box corner is hit. -/
theorem C9_hit_test_inclusive_witness :
    Target.hit ⟨3, 4, 5⟩ ⟨3, 4, 10, 10⟩ = true :=
  (C9_hit_test_inclusive ⟨3, 4, 5⟩ ⟨3, 4, 10, 10⟩).2 rfl rfl (by norm_num) (by norm_num)

/-- 4 by 4 rational matrices modelling `THREE.Matrix4`. -/
abbrev M4 := Matrix (Fin 4) (Fin 4) ℚ

/-- `Matrix4.makeTranslation(x, y, z)` of three.js. -/
def makeTranslation (x y z : ℚ) : M4 :=
  Matrix.of ![![1, 0, 0, x], ![0, 1, 0, y], ![0, 0, 1, z], ![0, 0, 0, 1]]

/-- `Matrix4.scale(v)` of three.js: multiply the first three columns of
the matrix by the components of `v` (the call site passes a uniform
`(s, s, s)`). -/
def matrixScale (m : M4) (sx sy sz : ℚ) : M4 :=
  Matrix.of (fun i j =>
    m i j * (if j = 0 then sx else if j = 1 then sy else if j = 2 then sz else 1))

/-- The uniform scale matrix `diag(s, s, s, 1)`. -/
def scaleMatrix (s : ℚ) : M4 :=
  Matrix.of ![![s, 0, 0, 0], ![0, s, 0, 0], ![0, 0, s, 0], ![0, 0, 0, 1]]

theorem matrixScale_eq_mul (m : M4) (s : ℚ) :
    matrixScale m s s s = m * scaleMatrix s := by
  ext i j
  fin_cases j <;>
    simp [matrixScale, scaleMatrix, Matrix.mul_apply, Fin.sum_univ_four,
      Matrix.vecHead, Matrix.vecTail, Function.comp]

/-- `Vector3.applyMatrix4(m)` of three.js: apply the 4 by 4 matrix to the
point and divide by the resulting homogeneous `w` (the source multiplies
by `1 / w`; a JavaScript division by zero would give non-finite values, a
case not reached with invertible camera matrices — the Lean convention
`q / 0 = 0` stands in for it). -/
def applyMatrix4 (m : M4) (v : Vec3) : Vec3 :=
  let w := m 3 0 * v.x + m 3 1 * v.y + m 3 2 * v.z + m 3 3
  ⟨(m 0 0 * v.x + m 0 1 * v.y + m 0 2 * v.z + m 0 3) / w,
   (m 1 0 * v.x + m 1 1 * v.y + m 1 2 * v.z + m 1 3) / w,
   (m 2 0 * v.x + m 2 1 * v.y + m 2 2 * v.z + m 2 3) / w⟩

/-- `Vector3.unproject(camera)` of three.js: apply the camera's
`projectionMatrixInverse`, then its `matrixWorld`. -/
def unproject (projectionMatrixInverse matrixWorld : M4) (v : Vec3) : Vec3 :=
  applyMatrix4 matrixWorld (applyMatrix4 projectionMatrixInverse v)

/-- The scene-graph state of the pinned object that `detectFaceLandmarks`
mutates: the traversed `visible` flag, and the root `matrixAutoUpdate`
flag and `matrix`. -/
structure ObjectState where
  visible : Bool
  matrixAutoUpdate : Bool
  matrix : M4

/-- `PinnedObject.applyMatrix(matrix, { scale })` (with the GLTF loaded):
scale the matrix columns, disable the automatic matrix recomputation, and
copy the result into the object's matrix. -/
def PinnedObject.applyMatrix (st : ObjectState) (m : M4) (s : ℚ) : ObjectState :=
  { st with matrixAutoUpdate := false, matrix := matrixScale m s s s }

/-- One frame of detector output consumed by `detectFaceLandmarks`. -/
structure FaceResult where
  faceLandmarks : List (List Landmark)
  facialTransformationMatrixes : List M4

/-- `detectFaceLandmarks` of `pin2.ts` (its state-changing part, with the
landmarker and the GLTF assumed loaded): set the traversed visibility
from `faceLandmarks.length > 0`; then, when a facial transformation
matrix is present, read the pin landmark, the nose-tip centre (index 1),
cheek landmarks 234 and 454 and forehead/chin landmarks 10 and 152, build
the displacement and the unprojected NDC position of the pin landmark,
and apply `tm * translate(world) * translate(displacement)` with uniform
scale 5 through `PinnedObject.applyMatrix`.  The returned flag is true
when the JavaScript code would throw on a missing landmark lookup (the
mutations made before the throw persist in the returned state). -/
def detectFaceLandmarks (projInv world : M4) (vertexToPin : ℕ)
    (res : FaceResult) (st : ObjectState) : ObjectState × Bool :=
  let st1 := { st with visible := decide (0 < res.faceLandmarks.length) }
  match res.facialTransformationMatrixes[0]? with
  | none => (st1, false)
  | some tm =>
    match res.faceLandmarks[0]? with
    | none => (st1, true)
    | some face =>
      match face[vertexToPin]?, face[1]?, face[234]?, face[454]?, face[10]?, face[152]? with
      | some vertex, some center, some lm234, some lm454, some lm10, some lm152 =>
        let faceWidth := |lm234.x - lm454.x| * 3
        let faceHeight := |lm10.y - lm152.y| * 1.25
        let faceDepth := |lm10.z - lm152.z|
        let displacement : Vec3 :=
          ⟨(vertex.x - center.x) * faceWidth * 120,
           (-vertex.y + center.y) * faceHeight * 120,
           (vertex.z - center.z) * faceDepth * 120⟩
        let ndc : Vec3 := ⟨vertex.x * 2 - 1, 1 - vertex.y * 2, vertex.z⟩
        let ndcWorld := unproject projInv world ndc
        let m1 := tm * makeTranslation ndcWorld.x ndcWorld.y ndcWorld.z
        let m2 := m1 * makeTranslation displacement.x displacement.y displacement.z
        (PinnedObject.applyMatrix st1 m2 5, false)
      | _, _, _, _, _, _ => (st1, true)

theorem replicate_getElem {α : Type} (n i : ℕ) (a : α) (h : i < n) :
    (List.replicate n a)[i]? = some a := by
  rw [List.getElem?_eq_getElem (by simpa using h), List.getElem_replicate]

/-- C2: when a facial transformation matrix is present and every landmark
lookup succeeds, `detectFaceLandmarks` converts the pin landmark to NDC
as `(2x - 1, 1 - 2y, z)`, unprojects it through the camera's inverse
projection, and writes the pose
`tm * translate(world) * translate(displacement) * scale(5)` to the
object with `matrixAutoUpdate` disabled; the object is visible and no
throw occurs. -/
theorem C2_transform_retargeter (projInv world : M4) (pin : ℕ)
    (res : FaceResult) (st : ObjectState) (tm : M4) (face : List Landmark)
    (vertex center lm234 lm454 lm10 lm152 : Landmark)
    (htm : res.facialTransformationMatrixes[0]? = some tm)
    (hface : res.faceLandmarks[0]? = some face)
    (hv : face[pin]? = some vertex) (hc : face[1]? = some center)
    (h234 : face[234]? = some lm234) (h454 : face[454]? = some lm454)
    (h10 : face[10]? = some lm10) (h152 : face[152]? = some lm152) :
    (detectFaceLandmarks projInv world pin res st).1.matrix =
      tm *
        makeTranslation
          (unproject projInv world ⟨2 * vertex.x - 1, 1 - 2 * vertex.y, vertex.z⟩).x
          (unproject projInv world ⟨2 * vertex.x - 1, 1 - 2 * vertex.y, vertex.z⟩).y
          (unproject projInv world ⟨2 * vertex.x - 1, 1 - 2 * vertex.y, vertex.z⟩).z *
        makeTranslation
          ((vertex.x - center.x) * (|lm234.x - lm454.x| * 3) * 120)
          ((-vertex.y + center.y) * (|lm10.y - lm152.y| * 1.25) * 120)
          ((vertex.z - center.z) * |lm10.z - lm152.z| * 120) *
        scaleMatrix 5 ∧
    (detectFaceLandmarks projInv world pin res st).1.matrixAutoUpdate = false ∧
    (detectFaceLandmarks projInv world pin res st).1.visible = true ∧
    (detectFaceLandmarks projInv world pin res st).2 = false := by
  have hlen : 0 < res.faceLandmarks.length := by
    cases h : res.faceLandmarks with
    | nil => rw [h] at hface; simp at hface
    | cons a l => simp [h]
  have hndc : (Vec3.mk (vertex.x * 2 - 1) (1 - vertex.y * 2) vertex.z) =
      ⟨2 * vertex.x - 1, 1 - 2 * vertex.y, vertex.z⟩ := by
    rw [mul_comm]
    rw [mul_comm vertex.y 2]
  simp only [detectFaceLandmarks, htm, hface, hv, hc, h234, h454, h10, h152,
    PinnedObject.applyMatrix]
  refine ⟨?_, trivial, by simp [hlen], trivial⟩
  simp only [matrixScale_eq_mul, hndc]

/-- The full mediapipe face mesh has 478 landmarks; a constant face list
long enough for every index the retargeter reads. -/
def demoFace : List Landmark :=
  List.replicate 478 ⟨1 / 2, 1 / 2, 0⟩

/-- A detector frame with one face and an identity transformation
matrix. -/
def demoFaceResult : FaceResult :=
  { faceLandmarks := [demoFace], facialTransformationMatrixes := [1] }

/-- A pre-frame object state. -/
def demoObjectState : ObjectState :=
  { visible := false, matrixAutoUpdate := true, matrix := 1 }

/-- Witness for C2 at a concrete frame: the matrix is present, the pin
lookup succeeds, and the applied pose disables the automatic update
without a throw. -/
theorem C2_transform_retargeter_witness :
    demoFaceResult.facialTransformationMatrixes[0]? = some 1 ∧
    demoFace[10]? = some ⟨1 / 2, 1 / 2, 0⟩ ∧
    (detectFaceLandmarks 1 1 10 demoFaceResult demoObjectState).1.matrixAutoUpdate = false ∧
    (detectFaceLandmarks 1 1 10 demoFaceResult demoObjectState).1.visible = true ∧
    (detectFaceLandmarks 1 1 10 demoFaceResult demoObjectState).2 = false :=
  ⟨rfl, replicate_getElem _ _ _ (by norm_num),
   (C2_transform_retargeter 1 1 10 demoFaceResult demoObjectState 1 demoFace
      ⟨1 / 2, 1 / 2, 0⟩ ⟨1 / 2, 1 / 2, 0⟩ ⟨1 / 2, 1 / 2, 0⟩ ⟨1 / 2, 1 / 2, 0⟩
      ⟨1 / 2, 1 / 2, 0⟩ ⟨1 / 2, 1 / 2, 0⟩ rfl rfl
      (replicate_getElem _ _ _ (by norm_num)) (replicate_getElem _ _ _ (by norm_num))
      (replicate_getElem _ _ _ (by norm_num)) (replicate_getElem _ _ _ (by norm_num))
      (replicate_getElem _ _ _ (by norm_num)) (replicate_getElem _ _ _ (by norm_num))).2.1,
   (C2_transform_retargeter 1 1 10 demoFaceResult demoObjectState 1 demoFace
      ⟨1 / 2, 1 / 2, 0⟩ ⟨1 / 2, 1 / 2, 0⟩ ⟨1 / 2, 1 / 2, 0⟩ ⟨1 / 2, 1 / 2, 0⟩
      ⟨1 / 2, 1 / 2, 0⟩ ⟨1 / 2, 1 / 2, 0⟩ rfl rfl
      (replicate_getElem _ _ _ (by norm_num)) (replicate_getElem _ _ _ (by norm_num))
      (replicate_getElem _ _ _ (by norm_num)) (replicate_getElem _ _ _ (by norm_num))
      (replicate_getElem _ _ _ (by norm_num)) (replicate_getElem _ _ _ (by norm_num))).2.2.1,
   (C2_transform_retargeter 1 1 10 demoFaceResult demoObjectState 1 demoFace
      ⟨1 / 2, 1 / 2, 0⟩ ⟨1 / 2, 1 / 2, 0⟩ ⟨1 / 2, 1 / 2, 0⟩ ⟨1 / 2, 1 / 2, 0⟩
      ⟨1 / 2, 1 / 2, 0⟩ ⟨1 / 2, 1 / 2, 0⟩ rfl rfl
      (replicate_getElem _ _ _ (by norm_num)) (replicate_getElem _ _ _ (by norm_num))
      (replicate_getElem _ _ _ (by norm_num)) (replicate_getElem _ _ _ (by norm_num))
      (replicate_getElem _ _ _ (by norm_num)) (replicate_getElem _ _ _ (by norm_num))).2.2.2⟩

/-- C8 counterexample: with a non-empty landmark set and an absent
transformation matrix, the object is made visible, not hidden — the
visibility assignment never consults the matrix list, refuting the
claim's "transformation matrix absent implies hidden" conjunct. -/
theorem C8_counterexample :
    (detectFaceLandmarks 1 1 0
        { faceLandmarks := [[⟨0, 0, 0⟩]], facialTransformationMatrixes := [] }
        { visible := false, matrixAutoUpdate := true, matrix := 1 }).1.visible = true ∧
    ({ faceLandmarks := [[⟨0, 0, 0⟩]],
       facialTransformationMatrixes := [] } : FaceResult).facialTransformationMatrixes = [] :=
  ⟨rfl, rfl⟩

/-- C8 (amended): in every frame the pinned object is visible iff the
frame's landmark set is non-empty; when the landmark set is empty the
object is marked invisible and no pose is applied; when the
transformation matrix is absent no pose is applied and the
automatic-update flag is untouched — the object is then hidden only when
the landmark set is also empty. -/
theorem C8_visibility_follows_landmarks (projInv world : M4) (pin : ℕ)
    (res : FaceResult) (st : ObjectState) :
    ((detectFaceLandmarks projInv world pin res st).1.visible = true ↔
      res.faceLandmarks ≠ []) ∧
    (res.faceLandmarks = [] →
      (detectFaceLandmarks projInv world pin res st).1.visible = false ∧
      (detectFaceLandmarks projInv world pin res st).1.matrix = st.matrix) ∧
    (res.facialTransformationMatrixes = [] →
      (detectFaceLandmarks projInv world pin res st).1.matrix = st.matrix ∧
      (detectFaceLandmarks projInv world pin res st).1.matrixAutoUpdate =
        st.matrixAutoUpdate ∧
      (detectFaceLandmarks projInv world pin res st).2 = false) := by
  have hvis : (detectFaceLandmarks projInv world pin res st).1.visible =
      decide (0 < res.faceLandmarks.length) := by
    simp only [detectFaceLandmarks]
    split
    · rfl
    · split
      · rfl
      · split
        · rfl
        · rfl
  refine ⟨?_, ?_, ?_⟩
  · rw [hvis]
    simp [List.length_pos]
  · intro hL
    refine ⟨by rw [hvis, hL]; rfl, ?_⟩
    simp only [detectFaceLandmarks]
    split
    · rfl
    · split
      · rfl
      · rename_i face hf
        rw [hL] at hf
        simp at hf
  · intro hT
    simp only [detectFaceLandmarks, hT]
    exact ⟨rfl, rfl, rfl⟩

/-- Witness for C8 (amended): an empty frame hides the object and leaves
the pose untouched. -/
theorem C8_visibility_follows_landmarks_witness :
    (({ faceLandmarks := [], facialTransformationMatrixes := [] } : FaceResult).faceLandmarks =
      []) ∧
    (detectFaceLandmarks 1 1 0 { faceLandmarks := [], facialTransformationMatrixes := [] }
        demoObjectState).1.visible = false ∧
    (detectFaceLandmarks 1 1 0 { faceLandmarks := [], facialTransformationMatrixes := [] }
        demoObjectState).1.matrix = demoObjectState.matrix :=
  ⟨rfl,
   ((C8_visibility_follows_landmarks 1 1 0
      { faceLandmarks := [], facialTransformationMatrixes := [] } demoObjectState).2.1 rfl).1,
   ((C8_visibility_follows_landmarks 1 1 0
      { faceLandmarks := [], facialTransformationMatrixes := [] } demoObjectState).2.1 rfl).2⟩

end FaceLandmark
